import Mathlib

/-!
Shallow embedding of `mdistiller/engine/utils.py` (the distributed-evaluation
and learning-rate-scheduling core) together with theorems checking the
natural-language specification against it.

Modelling conventions:
* Python floats are modelled as exact rational arithmetic.  The two
  transcendental primitives the code uses, `np.cos` and `np.pi`, are external
  to the repository and are threaded through as explicit parameters
  `rcos : ℚ → ℚ` and `rpi : ℚ`; every theorem below is proved for an
  arbitrary interpretation of these parameters, so in particular for the
  real cosine and the real π.
* A raised Python exception is modelled by `Except.error` with a string
  naming the exception; a normal return is `Except.ok`.
* A `torch` optimizer is modelled by the list of the `lr` values of its
  parameter groups, the only field the code touches.
* A 2-D score tensor of shape `[batch, classes]` is modelled by `Tensor2`:
  the list of its rows plus the class count (the class count is part of the
  tensor shape even when the batch is empty, so it is carried explicitly).
-/

namespace Mdistiller

/-! ### AverageMeter (utils.py lines 12-28) -/

/-- The running-statistic object: `val`, `avg`, `sum`, `count` fields. -/
structure AverageMeter where
  val : ℚ
  avg : ℚ
  sum : ℚ
  count : ℚ
deriving DecidableEq, Repr

/-- Model of `reset()`: zero every field. A fresh meter (`__init__`) calls `reset`. -/
def AverageMeter.reset : AverageMeter :=
  { val := 0, avg := 0, sum := 0, count := 0 }

/-- Model of `update(val, n=1)`: `sum += val * n; count += n; avg = sum / count`.
In Python a zero `count` raises `ZeroDivisionError`; here `ℚ` division by
zero yields `0`, and theorems about `update` restrict to positive weights,
which rules the zero-count case out. -/
def AverageMeter.update (m : AverageMeter) (v : ℚ) (n : ℚ := 1) : AverageMeter :=
  let s := m.sum + v * n
  let c := m.count + n
  { val := v, avg := s / c, sum := s, count := c }

/-- Run a sequence of `update` calls, left to right. -/
def runUpdates (m : AverageMeter) (us : List (ℚ × ℚ)) : AverageMeter :=
  us.foldl (fun a u => a.update u.1 u.2) m

/-! ### Learning-rate scheduler (utils.py lines 83-122) -/

/-- The `cfg.SOLVER.SCHEDULE.MULTISTEP` block. -/
structure MultistepCfg where
  STAGES : List ℤ
  RATE : ℚ
deriving DecidableEq

/-- The `cfg.SOLVER.SCHEDULE.COSINE` block. -/
structure CosineCfg where
  WARMUP : ℕ
  RATE : ℚ
deriving DecidableEq

/-- The `cfg.SOLVER.SCHEDULE` block. -/
structure ScheduleCfg where
  TYPE : String
  MULTISTEP : MultistepCfg
  COSINE : CosineCfg
deriving DecidableEq

/-- The `cfg.SOLVER` block. -/
structure SolverCfg where
  SCHEDULE : ScheduleCfg
  LR : ℚ
  BATCH_SIZE : ℕ
  EPOCHS : ℕ
deriving DecidableEq

/-- The `cfg.DATASET` block. -/
structure DatasetCfg where
  TYPE : String
deriving DecidableEq

/-- The configuration slice read by `adjust_learning_rate`. -/
structure Cfg where
  SOLVER : SolverCfg
  DATASET : DatasetCfg
deriving DecidableEq

/-- Model of `np.sum(epoch > np.asarray(stages))`: the number of stage thresholds
strictly below `epoch`. -/
def multistepSteps (epoch : ℤ) (stages : List ℤ) : ℕ :=
  (stages.filter (fun s => decide (s < epoch))).length

/-- The dataset-size dictionary at utils.py lines 101-104; a missing key is
a Python `KeyError`. -/
def datasetNumSamples : String → Option ℕ
  | "imagenet" => some 1281167
  | "cifar100" => some 50000
  | _ => none

/-- Model of `adjust_learning_rate(epoch, bidx, cfg, optimizer)` (utils.py 83-122).
The optimizer is the list of its parameter-group `lr` values; the result is
the returned rate together with the optimizer state after the call.
`int(ceil(a / b))` on positive integers is the exact ceiling division
`(a + b - 1) / b`.  `rcos` and `rpi` interpret `np.cos` and `np.pi`. -/
def adjust_learning_rate (rcos : ℚ → ℚ) (rpi : ℚ) (epoch : ℤ) (bidx : ℕ)
    (cfg : Cfg) (optimizer : List ℚ) : Except String (ℚ × List ℚ) :=
  if cfg.SOLVER.SCHEDULE.TYPE = "MULTISTEP" then
    if bidx = 0 then
      let steps := multistepSteps epoch cfg.SOLVER.SCHEDULE.MULTISTEP.STAGES
      if 0 < steps then
        let new_lr := cfg.SOLVER.LR * cfg.SOLVER.SCHEDULE.MULTISTEP.RATE ^ steps
        Except.ok (new_lr, optimizer.map fun _ => new_lr)
      else
        Except.ok (cfg.SOLVER.LR, optimizer)
    else
      match optimizer with
      | [] => Except.error "IndexError: param_groups is empty"
      | lr0 :: _ => Except.ok (lr0, optimizer)
  else if cfg.SOLVER.SCHEDULE.TYPE = "COSINE" then
    match datasetNumSamples cfg.DATASET.TYPE with
    | none => Except.error "KeyError: unknown dataset"
    | some numSamples =>
      if cfg.SOLVER.BATCH_SIZE = 0 then
        Except.error "ZeroDivisionError: batch size is zero"
      else
        let num_epoch_batches : ℕ :=
          (numSamples + cfg.SOLVER.BATCH_SIZE - 1) / cfg.SOLVER.BATCH_SIZE
        let warmup_epochs := cfg.SOLVER.SCHEDULE.COSINE.WARMUP
        let num_warmup_batches : ℕ := num_epoch_batches * warmup_epochs
        let base_lr := cfg.SOLVER.LR
        let global_bidx : ℤ := (epoch - 1) * (num_epoch_batches : ℤ) + (bidx : ℤ)
        if global_bidx < (num_warmup_batches : ℤ) then
          if num_warmup_batches = 0 then
            Except.error "ZeroDivisionError: warmup batch count is zero"
          else
            let new_lr := base_lr / (num_warmup_batches : ℚ) * ((global_bidx : ℚ) + 1)
            Except.ok (new_lr, optimizer.map fun _ => new_lr)
        else
          let cos_bidx : ℤ := global_bidx - (num_warmup_batches : ℤ)
          let num_cos_batches : ℤ :=
            (num_epoch_batches : ℤ) * ((cfg.SOLVER.EPOCHS : ℤ) - (warmup_epochs : ℤ))
          if num_cos_batches = 0 then
            Except.error "ZeroDivisionError: cosine batch count is zero"
          else
            let last_lr := base_lr * cfg.SOLVER.SCHEDULE.COSINE.RATE
            let new_lr :=
              (rcos ((cos_bidx : ℚ) / (num_cos_batches : ℚ) * rpi) + 1) * 0.5 *
                (base_lr - last_lr) + last_lr
            Except.ok (new_lr, optimizer.map fun _ => new_lr)
  else
    Except.error ("NotImplementedError: " ++ cfg.SOLVER.SCHEDULE.TYPE)

/-! ### Top-k accuracy (utils.py lines 125-136) -/

/-- A 2-D tensor of shape `[batch, classes]`: row list plus class count. -/
structure Tensor2 where
  rows : List (List ℚ)
  cols : ℕ
deriving DecidableEq

/-- The class order produced by `output.topk(maxk, 1, True, True)` on one
row: class `i` comes before class `j` when its score is strictly higher, or
when the scores are exactly equal and `i ≤ j`.  `torch` leaves the order of
exactly tied scores implementation-defined; the spec fixes the ascending
class-index convention, which is what this relation encodes. -/
def idxOrder (row : List ℚ) (i j : ℕ) : Prop :=
  row.getD j 0 < row.getD i 0 ∨ (row.getD i 0 = row.getD j 0 ∧ i ≤ j)

instance (row : List ℚ) : DecidableRel (idxOrder row) := fun i j => by
  unfold idxOrder; infer_instance

instance (row : List ℚ) : IsTotal ℕ (idxOrder row) where
  total i j := by
    rcases lt_trichotomy (row.getD i 0) (row.getD j 0) with h | h | h
    · exact Or.inr (Or.inl h)
    · rcases Nat.le_total i j with hij | hij
      · exact Or.inl (Or.inr ⟨h, hij⟩)
      · exact Or.inr (Or.inr ⟨h.symm, hij⟩)
    · exact Or.inl (Or.inl h)

instance (row : List ℚ) : IsTrans ℕ (idxOrder row) where
  trans i j k hij hjk := by
    rcases hij with h1 | ⟨e1, l1⟩
    · rcases hjk with h2 | ⟨e2, l2⟩
      · exact Or.inl (h2.trans h1)
      · exact Or.inl (e2 ▸ h1)
    · rcases hjk with h2 | ⟨e2, l2⟩
      · exact Or.inl (e1 ▸ h2)
      · exact Or.inr ⟨e1.trans e2, l1.trans l2⟩

/-- The full descending class ranking of one row: all class indices
`0, …, cols-1` sorted by score (highest first, ties by ascending index).
`pred` in the code is the first `maxk` entries of this list per row. -/
def rankIndices (row : List ℚ) (cols : ℕ) : List ℕ :=
  List.insertionSort (idxOrder row) (List.range cols)

/-- Python `max(topk)`; the empty case raises `ValueError` in `accuracy`. -/
def maxOfTopk : List ℕ → ℕ
  | [] => 0
  | k :: ks => ks.foldl max k

/-- Model of `accuracy(output, target, topk)` (utils.py 125-136).  Per requested `k`
it counts the samples whose label is among the first `k` of the `maxk`
top-ranked classes and scales by `100 / batch_size`.  The error branches
mirror Python: `max(())` raises `ValueError`; `topk` with `maxk > classes`
raises a `RuntimeError`; `100.0 / 0` raises `ZeroDivisionError`. -/
def accuracy (output : Tensor2) (target : List ℕ) (topk : List ℕ) :
    Except String (List ℚ) :=
  match topk with
  | [] => Except.error "ValueError: max of an empty sequence"
  | _ :: _ =>
    let maxk := maxOfTopk topk
    if output.cols < maxk then
      Except.error "RuntimeError: selected index k out of range"
    else if target.length = 0 then
      Except.error "ZeroDivisionError: division by zero"
    else
      let pred := output.rows.map fun row => (rankIndices row output.cols).take maxk
      Except.ok (topk.map fun k =>
        (((pred.zip target).countP fun p => decide (p.2 ∈ p.1.take k)) : ℚ) *
          (100 / (target.length : ℚ)))

/-- The number of samples whose label is among the top `k` ranked classes. -/
def hitCount (output : Tensor2) (target : List ℕ) (k : ℕ) : ℕ :=
  (output.rows.zip target).countP fun p =>
    decide (p.2 ∈ (rankIndices p.1 output.cols).take k)

/-- The specification of conventional top-k selection for one row: `sel`
lists `min k cols` distinct valid classes, and every selected class beats
every unselected one — strictly higher score, or an exactly equal score and
a lower class index. -/
def TopkSpec (row : List ℚ) (cols k : ℕ) (sel : List ℕ) : Prop :=
  sel.length = min k cols ∧ sel.Nodup ∧ (∀ i ∈ sel, i < cols) ∧
    ∀ i ∈ sel, ∀ j, j < cols → j ∉ sel →
      row.getD j 0 < row.getD i 0 ∨ (row.getD i 0 = row.getD j 0 ∧ i < j)

/-! ### Evaluation loop (utils.py lines 31-80) -/

/-- The dictionary in `log_msg` (utils.py 74-78). -/
def color_map (mode : String) : Option ℕ :=
  if mode = "INFO" then some 36
  else if mode = "TRAIN" then some 32
  else if mode = "EVAL" then some 31
  else none

/-- Model of `log_msg(msg, mode)` (utils.py 73-80).  The repository only ever calls
it with the three known modes, where the dictionary lookup succeeds; the
unknown-mode `KeyError` path is unreached and defaults here. -/
def log_msg (msg : String) (mode : String) : String :=
  "\x1b[" ++ toString ((color_map mode).getD 0) ++ "m[" ++ mode ++ "] " ++
    msg ++ "\x1b[0m"

/-- One iteration of the `validate` loop as seen by one worker: the
already-gathered full-batch view `(output_all, target_all)` produced by the
external all-gather `dist_fn.gather` (concatenation across ranks, identical
on every worker). -/
structure Batch where
  output : Tensor2
  target : List ℕ
deriving DecidableEq

/-- The metric updates of one `validate` iteration (utils.py 51-58):
cross-entropy loss (the external `nn.CrossEntropyLoss`, passed in as the
opaque `criterion`), top-1/top-5 accuracy on the gathered view, and the
iteration-timing meter fed by the wall clock (passed in as duration `d`). -/
def evalStep (criterion : Tensor2 → List ℕ → ℚ) (b : Batch) (d : ℚ)
    (batch_time losses top1 top5 : AverageMeter) :
    Except String (AverageMeter × AverageMeter × AverageMeter × AverageMeter) :=
  match accuracy b.output b.target [1, 5] with
  | Except.error e => Except.error e
  | Except.ok accs =>
    match accs with
    | [acc1, acc5] =>
      let batch_size : ℚ := (b.target.length : ℚ)
      Except.ok (batch_time.update d 1,
        losses.update (criterion b.output b.target) batch_size,
        top1.update acc1 batch_size,
        top5.update acc5 batch_size)
    | _ => Except.error "ValueError: unexpected accuracy shape"

/-- The batch loop of `validate` (utils.py 43-67).  `IS_MASTER` controls
only the progress-bar messages, which are accumulated in `msgs`; `durations`
feeds the wall-clock readings of `batch_time.update`. -/
def validateLoop (IS_MASTER : Bool) (criterion : Tensor2 → List ℕ → ℚ)
    (batches : List Batch) (durations : List ℚ)
    (batch_time losses top1 top5 : AverageMeter) (msgs : List String) :
    Except String
      ((AverageMeter × AverageMeter × AverageMeter × AverageMeter) × List String) :=
  match batches with
  | [] => Except.ok ((batch_time, losses, top1, top5), msgs)
  | b :: rest =>
    match evalStep criterion b (durations.headD 0) batch_time losses top1 top5 with
    | Except.error e => Except.error e
    | Except.ok (bt2, losses2, top12, top52) =>
      let msgs2 :=
        if IS_MASTER then
          msgs ++ [log_msg ("Top-1:" ++ toString top12.avg ++ "| Top-5:" ++
            toString top52.avg) "EVAL"]
        else msgs
      validateLoop IS_MASTER criterion rest durations.tail bt2 losses2 top12 top52 msgs2

/-- Model of `validate(val_loader, distiller)` (utils.py 31-70): runs the loop from
freshly reset meters and returns `(top1.avg, top5.avg, losses.avg)` together
with the progress messages the master worker displayed. -/
def validate (IS_MASTER : Bool) (criterion : Tensor2 → List ℕ → ℚ)
    (batches : List Batch) (durations : List ℚ) :
    Except String ((ℚ × ℚ × ℚ) × List String) :=
  match validateLoop IS_MASTER criterion batches durations
      AverageMeter.reset AverageMeter.reset AverageMeter.reset AverageMeter.reset [] with
  | Except.error e => Except.error e
  | Except.ok ((_, losses, top1, top5), msgs) =>
    Except.ok ((top1.avg, top5.avg, losses.avg), msgs)

/-! ### Checkpoint store (utils.py lines 139-146) -/

/-- The file system as a map from paths to stored blobs.  The serialized
checkpoint is an opaque blob (`torch.save`/`torch.load` round-trip the
in-memory object by contract, and the byte format is out of scope), so a
stored blob is represented by the object itself. -/
def FileSystem (V : Type) : Type := String → Option V

/-- Model of `save_checkpoint(obj, path)` (utils.py 139-141): write the blob at
`path`, overwriting any existing file. -/
def save_checkpoint {V : Type} (obj : V) (path : String) (fs : FileSystem V) :
    FileSystem V :=
  fun p => if p = path then some obj else fs p

/-- Model of `load_checkpoint(path)` (utils.py 144-146): read the blob back; a
missing path is the `FileNotFoundError` of `open(path, "rb")`. -/
def load_checkpoint {V : Type} (path : String) (fs : FileSystem V) :
    Except String V :=
  match fs path with
  | none => Except.error "FileNotFoundError"
  | some v => Except.ok v

/-! ### Example configurations used by concrete instances -/

/-- The MULTISTEP configuration of the spec example: `base_lr = 1/10`,
stages `[30, 60, 90]`, decay rate `1/10`. -/
def cfgMultistep : Cfg :=
  { SOLVER :=
    { SCHEDULE :=
      { TYPE := "MULTISTEP"
        MULTISTEP := { STAGES := [30, 60, 90], RATE := 1/10 }
        COSINE := { WARMUP := 5, RATE := 1/100 } }
      LR := 1/10
      BATCH_SIZE := 64
      EPOCHS := 240 }
    DATASET := { TYPE := "cifar100" } }

/-- A small COSINE configuration on cifar100: one batch per epoch
(`BATCH_SIZE = 50000`), one warmup epoch, three epochs in total. -/
def cfgCosine : Cfg :=
  { SOLVER :=
    { SCHEDULE :=
      { TYPE := "COSINE"
        MULTISTEP := { STAGES := [30, 60, 90], RATE := 1/10 }
        COSINE := { WARMUP := 1, RATE := 1/100 } }
      LR := 1/10
      BATCH_SIZE := 50000
      EPOCHS := 3 }
    DATASET := { TYPE := "cifar100" } }

/-- The `cfgCosine` configuration with a zero batch size. -/
def cfgCosineZeroBS : Cfg :=
  { SOLVER :=
    { SCHEDULE :=
      { TYPE := "COSINE"
        MULTISTEP := { STAGES := [30, 60, 90], RATE := 1/10 }
        COSINE := { WARMUP := 1, RATE := 1/100 } }
      LR := 1/10
      BATCH_SIZE := 0
      EPOCHS := 3 }
    DATASET := { TYPE := "cifar100" } }

/-- A configuration whose schedule type is neither MULTISTEP nor COSINE. -/
def cfgUnknownType : Cfg :=
  { SOLVER :=
    { SCHEDULE :=
      { TYPE := "STEP"
        MULTISTEP := { STAGES := [30, 60, 90], RATE := 1/10 }
        COSINE := { WARMUP := 1, RATE := 1/100 } }
      LR := 1/10
      BATCH_SIZE := 64
      EPOCHS := 240 }
    DATASET := { TYPE := "cifar100" } }

/-! ### Helper lemmas about `runUpdates` -/

lemma runUpdates_cons (m : AverageMeter) (u : ℚ × ℚ) (us : List (ℚ × ℚ)) :
    runUpdates m (u :: us) = runUpdates (m.update u.1 u.2) us := rfl

lemma runUpdates_sum (us : List (ℚ × ℚ)) : ∀ m : AverageMeter,
    (runUpdates m us).sum = m.sum + (us.map fun u => u.1 * u.2).sum := by
  induction us with
  | nil => intro m; simp [runUpdates]
  | cons u t ih =>
    intro m
    rw [runUpdates_cons, ih]
    simp [AverageMeter.update]
    ring

lemma runUpdates_count (us : List (ℚ × ℚ)) : ∀ m : AverageMeter,
    (runUpdates m us).count = m.count + (us.map fun u => u.2).sum := by
  induction us with
  | nil => intro m; simp [runUpdates]
  | cons u t ih =>
    intro m
    rw [runUpdates_cons, ih]
    simp [AverageMeter.update]
    ring

lemma runUpdates_avg (us : List (ℚ × ℚ)) (hne : us ≠ []) : ∀ m : AverageMeter,
    (runUpdates m us).avg = (runUpdates m us).sum / (runUpdates m us).count := by
  induction us with
  | nil => exact absurd rfl hne
  | cons u t ih =>
    intro m
    rcases t with _ | ⟨v, t2⟩
    · simp [runUpdates, AverageMeter.update]
    · rw [runUpdates_cons]
      exact ih (List.cons_ne_nil v t2) (m.update u.1 u.2)

/-- C5: after `reset` and before the first `update` the average is `0`; for
every sequence of `update(value, weight)` calls with positive weights, the
final `sum` is the weighted sum of the values, the final `count` is the sum
of the weights (hence positive), and `avg = sum / count`; the updates
`(1, weight 2)` then `(3, weight 2)` end with `sum = 8`, `count = 4`,
`avg = 2`. -/
theorem averageMeter_avg_invariant (us : List (ℚ × ℚ)) (hw : ∀ u ∈ us, 0 < u.2) :
    AverageMeter.reset.avg = 0 ∧
    (runUpdates AverageMeter.reset us).sum = (us.map fun u => u.1 * u.2).sum ∧
    (runUpdates AverageMeter.reset us).count = (us.map fun u => u.2).sum ∧
    (us ≠ [] →
      0 < (runUpdates AverageMeter.reset us).count ∧
      (runUpdates AverageMeter.reset us).avg =
        (runUpdates AverageMeter.reset us).sum /
          (runUpdates AverageMeter.reset us).count) ∧
    runUpdates AverageMeter.reset [(1, 2), (3, 2)] =
      { val := 3, avg := 2, sum := 8, count := 4 } := by
  refine ⟨rfl, ?_, ?_, ?_,
    by norm_num [runUpdates, AverageMeter.update, AverageMeter.reset]⟩
  · rw [runUpdates_sum]; simp [AverageMeter.reset]
  · rw [runUpdates_count]; simp [AverageMeter.reset]
  · intro hne
    refine ⟨?_, runUpdates_avg us hne AverageMeter.reset⟩
    rw [runUpdates_count]
    simp only [AverageMeter.reset, zero_add]
    apply List.sum_pos
    · intro x hx
      obtain ⟨u, hu, rfl⟩ := List.mem_map.1 hx
      exact hw u hu
    · simpa using hne

/-- Witness for C5 at the concrete update sequence of the spec example. -/
theorem averageMeter_avg_invariant_witness :
    (∀ u ∈ ([(1, 2), (3, 2)] : List (ℚ × ℚ)), 0 < u.2) ∧
    (runUpdates AverageMeter.reset [(1, 2), (3, 2)]).avg =
      (runUpdates AverageMeter.reset [(1, 2), (3, 2)]).sum /
        (runUpdates AverageMeter.reset [(1, 2), (3, 2)]).count :=
  ⟨by decide,
    ((averageMeter_avg_invariant [(1, 2), (3, 2)] (by decide)).2.2.2.1
      (by decide)).2⟩

/-! ### Branch characterizations of `adjust_learning_rate` -/

/-- The rate the MULTISTEP arm computes when recomputation happens. -/
def multistepLR (cfg : Cfg) (epoch : ℤ) : ℚ :=
  cfg.SOLVER.LR * cfg.SOLVER.SCHEDULE.MULTISTEP.RATE ^
    multistepSteps epoch cfg.SOLVER.SCHEDULE.MULTISTEP.STAGES

/-- The quantity `num_epoch_batches = int(ceil(dataset_size / batch_size))`. -/
def cosineB (S : ℕ) (cfg : Cfg) : ℕ :=
  (S + cfg.SOLVER.BATCH_SIZE - 1) / cfg.SOLVER.BATCH_SIZE

/-- The quantity `num_warmup_batches = num_epoch_batches * warmup_epochs`. -/
def cosineW (S : ℕ) (cfg : Cfg) : ℕ :=
  cosineB S cfg * cfg.SOLVER.SCHEDULE.COSINE.WARMUP

/-- The quantity `global_bidx = (epoch - 1) * num_epoch_batches + bidx`. -/
def cosineG (S : ℕ) (cfg : Cfg) (epoch : ℤ) (bidx : ℕ) : ℤ :=
  (epoch - 1) * (cosineB S cfg : ℤ) + (bidx : ℤ)

/-- The quantity `num_cos_batches = num_epoch_batches * (total_epochs - warmup_epochs)`. -/
def cosineT (S : ℕ) (cfg : Cfg) : ℤ :=
  (cosineB S cfg : ℤ) *
    ((cfg.SOLVER.EPOCHS : ℤ) - (cfg.SOLVER.SCHEDULE.COSINE.WARMUP : ℤ))

/-- The linear warmup rate `base_lr / num_warmup_batches * (global_bidx + 1)`. -/
def cosineWarmupLR (S : ℕ) (cfg : Cfg) (epoch : ℤ) (bidx : ℕ) : ℚ :=
  cfg.SOLVER.LR / (cosineW S cfg : ℚ) * ((cosineG S cfg epoch bidx : ℚ) + 1)

/-- The annealed rate
`(cos(cos_bidx / num_cos_batches * pi) + 1) * 0.5 * (base_lr - last_lr) + last_lr`. -/
def cosineAnnealLR (rcos : ℚ → ℚ) (rpi : ℚ) (S : ℕ) (cfg : Cfg)
    (epoch : ℤ) (bidx : ℕ) : ℚ :=
  (rcos (((cosineG S cfg epoch bidx - (cosineW S cfg : ℤ) : ℤ) : ℚ) /
      (cosineT S cfg : ℚ) * rpi) + 1) * 0.5 *
    (cfg.SOLVER.LR - cfg.SOLVER.LR * cfg.SOLVER.SCHEDULE.COSINE.RATE) +
    cfg.SOLVER.LR * cfg.SOLVER.SCHEDULE.COSINE.RATE

lemma adjust_lr_multistep (rcos : ℚ → ℚ) (rpi : ℚ) (epoch : ℤ) (bidx : ℕ)
    (cfg : Cfg) (optimizer : List ℚ)
    (hty : cfg.SOLVER.SCHEDULE.TYPE = "MULTISTEP") :
    adjust_learning_rate rcos rpi epoch bidx cfg optimizer =
      if bidx = 0 then
        if 0 < multistepSteps epoch cfg.SOLVER.SCHEDULE.MULTISTEP.STAGES then
          Except.ok (multistepLR cfg epoch, optimizer.map fun _ => multistepLR cfg epoch)
        else
          Except.ok (cfg.SOLVER.LR, optimizer)
      else
        match optimizer with
        | [] => Except.error "IndexError: param_groups is empty"
        | lr0 :: _ => Except.ok (lr0, optimizer) := by
  rw [adjust_learning_rate.eq_def, hty, if_pos rfl]
  rfl

lemma adjust_lr_unknown (rcos : ℚ → ℚ) (rpi : ℚ) (epoch : ℤ) (bidx : ℕ)
    (cfg : Cfg) (optimizer : List ℚ)
    (h1 : cfg.SOLVER.SCHEDULE.TYPE ≠ "MULTISTEP")
    (h2 : cfg.SOLVER.SCHEDULE.TYPE ≠ "COSINE") :
    adjust_learning_rate rcos rpi epoch bidx cfg optimizer =
      Except.error ("NotImplementedError: " ++ cfg.SOLVER.SCHEDULE.TYPE) := by
  rw [adjust_learning_rate.eq_def, if_neg h1, if_neg h2]

lemma adjust_lr_unknown_dataset (rcos : ℚ → ℚ) (rpi : ℚ) (epoch : ℤ) (bidx : ℕ)
    (cfg : Cfg) (optimizer : List ℚ)
    (hty : cfg.SOLVER.SCHEDULE.TYPE = "COSINE")
    (hds : datasetNumSamples cfg.DATASET.TYPE = none) :
    adjust_learning_rate rcos rpi epoch bidx cfg optimizer =
      Except.error "KeyError: unknown dataset" := by
  rw [adjust_learning_rate.eq_def, hty,
    if_neg (by decide : ¬ ("COSINE" = "MULTISTEP")), if_pos rfl, hds]

lemma adjust_lr_cosine_known (rcos : ℚ → ℚ) (rpi : ℚ) (epoch : ℤ) (bidx : ℕ)
    (cfg : Cfg) (optimizer : List ℚ) (S : ℕ)
    (hty : cfg.SOLVER.SCHEDULE.TYPE = "COSINE")
    (hds : datasetNumSamples cfg.DATASET.TYPE = some S) :
    adjust_learning_rate rcos rpi epoch bidx cfg optimizer =
      if cfg.SOLVER.BATCH_SIZE = 0 then
        Except.error "ZeroDivisionError: batch size is zero"
      else
        if cosineG S cfg epoch bidx < (cosineW S cfg : ℤ) then
          if cosineW S cfg = 0 then
            Except.error "ZeroDivisionError: warmup batch count is zero"
          else
            Except.ok (cosineWarmupLR S cfg epoch bidx,
              optimizer.map fun _ => cosineWarmupLR S cfg epoch bidx)
        else
          if cosineT S cfg = 0 then
            Except.error "ZeroDivisionError: cosine batch count is zero"
          else
            Except.ok (cosineAnnealLR rcos rpi S cfg epoch bidx,
              optimizer.map fun _ => cosineAnnealLR rcos rpi S cfg epoch bidx) := by
  rw [adjust_learning_rate.eq_def, hty,
    if_neg (by decide : ¬ ("COSINE" = "MULTISTEP")), if_pos rfl, hds]
  rfl

/-! ### C1: which scheduler calls write the rate into the optimizer -/

/-- C1 counterexample: a MULTISTEP call with `batch_index = 0` and zero
exceeded stage thresholds (epoch 1, stages `[30, 60, 90]`) returns
`base_lr = 1/10` but leaves a parameter group holding `5`, so after the call
the parameter groups do not hold the returned rate. -/
theorem adjust_lr_write_counterexample :
    adjust_learning_rate (fun _ => 0) 0 1 0 cfgMultistep [(5 : ℚ)] =
      Except.ok (cfgMultistep.SOLVER.LR, [(5 : ℚ)]) ∧
    (5 : ℚ) ≠ cfgMultistep.SOLVER.LR := by
  constructor
  · rfl
  · norm_num [cfgMultistep]

/-- C1 (amended): every COSINE call that returns a rate, and every MULTISTEP
call with `batch_index = 0` and at least one exceeded stage threshold,
writes the returned rate into every parameter group; a MULTISTEP call with
`batch_index = 0` and zero exceeded stage thresholds returns `base_lr`
with the optimizer unchanged. -/
theorem adjust_lr_write_policy (rcos : ℚ → ℚ) (rpi : ℚ) (epoch : ℤ) (bidx : ℕ)
    (cfg : Cfg) (optimizer : List ℚ) :
    ((cfg.SOLVER.SCHEDULE.TYPE = "COSINE" ∨
        (cfg.SOLVER.SCHEDULE.TYPE = "MULTISTEP" ∧ bidx = 0 ∧
          0 < multistepSteps epoch cfg.SOLVER.SCHEDULE.MULTISTEP.STAGES)) →
      ∀ r opt2,
        adjust_learning_rate rcos rpi epoch bidx cfg optimizer = Except.ok (r, opt2) →
        opt2 = optimizer.map fun _ => r) ∧
    ((cfg.SOLVER.SCHEDULE.TYPE = "MULTISTEP" ∧ bidx = 0 ∧
        multistepSteps epoch cfg.SOLVER.SCHEDULE.MULTISTEP.STAGES = 0) →
      adjust_learning_rate rcos rpi epoch bidx cfg optimizer =
        Except.ok (cfg.SOLVER.LR, optimizer)) := by
  constructor
  · rintro (hty | ⟨hty, hb, hs⟩) r opt2 h
    · rcases hds : datasetNumSamples cfg.DATASET.TYPE with _ | S
      · rw [adjust_lr_unknown_dataset rcos rpi epoch bidx cfg optimizer hty hds] at h
        cases h
      · rw [adjust_lr_cosine_known rcos rpi epoch bidx cfg optimizer S hty hds] at h
        split_ifs at h with h1 h2 h3 h4
        · obtain ⟨rfl, rfl⟩ := Prod.mk.inj (Except.ok.inj h)
          rfl
        · obtain ⟨rfl, rfl⟩ := Prod.mk.inj (Except.ok.inj h)
          rfl
    · subst hb
      rw [adjust_lr_multistep rcos rpi epoch 0 cfg optimizer hty,
        if_pos rfl, if_pos hs] at h
      obtain ⟨rfl, rfl⟩ := Prod.mk.inj (Except.ok.inj h)
      rfl
  · rintro ⟨hty, hb, hs⟩
    subst hb
    rw [adjust_lr_multistep rcos rpi epoch 0 cfg optimizer hty,
      if_pos rfl, if_neg (by omega)]

/-- Witness for C1 (amended) at a concrete MULTISTEP input with zero
exceeded stages: the optimizer is left unchanged. -/
theorem adjust_lr_write_policy_witness :
    adjust_learning_rate (fun _ => 0) 0 1 0 cfgMultistep [(5 : ℚ)] =
      Except.ok (cfgMultistep.SOLVER.LR, [(5 : ℚ)]) :=
  (adjust_lr_write_policy (fun _ => 0) 0 1 0 cfgMultistep [(5 : ℚ)]).2
    ⟨rfl, rfl, by decide⟩

/-! ### C2: the MULTISTEP rate formula -/

/-- C2 counterexample: with the MULTISTEP spec configuration at epoch 1
(zero exceeded stages, so the scheduled rate is `base_lr * rate^0 = 1/10`),
a call at batch index 1 returns whatever the first parameter group holds
(here `5`), which differs from `base_lr * decay_rate ^ s`; so the returned
rate is neither the scheduled one nor the one returned at batch index 0. -/
theorem multistep_rate_counterexample :
    adjust_learning_rate (fun _ => 0) 0 1 1 cfgMultistep [(5 : ℚ)] =
      Except.ok (5, [(5 : ℚ)]) ∧
    (5 : ℚ) ≠ cfgMultistep.SOLVER.LR *
      cfgMultistep.SOLVER.SCHEDULE.MULTISTEP.RATE ^
        multistepSteps 1 cfgMultistep.SOLVER.SCHEDULE.MULTISTEP.STAGES := by
  constructor
  · rfl
  · norm_num [cfgMultistep, show multistepSteps 1 [30, 60, 90] = 0 from rfl]

/-- C2 (amended): for a MULTISTEP configuration the rate returned by
`adjust_learning_rate` equals `base_lr * decay_rate ^ s`, with `s` the
number of stage thresholds strictly exceeded by the epoch, for every batch
index — provided that for `batch_index > 0` the first parameter group
already holds that value (the `batch_index = 0` call establishes it when
`s > 0`, and an optimizer initialized at `base_lr` supplies it when
`s = 0`).  The spec example `base_lr = 1/10`, stages `[30, 60, 90]`,
decay rate `1/10`, epoch 45 yields rate `1/100`. -/
theorem multistep_rate (rcos : ℚ → ℚ) (rpi : ℚ) (epoch : ℤ) (bidx : ℕ)
    (cfg : Cfg) (optimizer : List ℚ)
    (hty : cfg.SOLVER.SCHEDULE.TYPE = "MULTISTEP")
    (hopt : bidx ≠ 0 → optimizer.head? = some (multistepLR cfg epoch)) :
    (∃ opt2, adjust_learning_rate rcos rpi epoch bidx cfg optimizer =
      Except.ok (multistepLR cfg epoch, opt2)) ∧
    adjust_learning_rate (fun _ => 0) 0 45 0 cfgMultistep [(1 : ℚ)/10] =
      Except.ok (1/100, [(1 : ℚ)/100]) := by
  constructor
  · rw [adjust_lr_multistep rcos rpi epoch bidx cfg optimizer hty]
    by_cases hb : bidx = 0
    · rw [if_pos hb]
      by_cases hs : 0 < multistepSteps epoch cfg.SOLVER.SCHEDULE.MULTISTEP.STAGES
      · rw [if_pos hs]
        exact ⟨_, rfl⟩
      · rw [if_neg hs]
        have h0 : multistepSteps epoch cfg.SOLVER.SCHEDULE.MULTISTEP.STAGES = 0 := by
          omega
        refine ⟨optimizer, ?_⟩
        rw [multistepLR, h0, pow_zero, mul_one]
    · rw [if_neg hb]
      have hh := hopt hb
      rcases optimizer with _ | ⟨lr0, rest⟩
      · simp at hh
      · obtain h1 := Option.some.inj hh
        subst h1
        exact ⟨_, rfl⟩
  · have hst : multistepSteps 45 cfgMultistep.SOLVER.SCHEDULE.MULTISTEP.STAGES = 1 := rfl
    rw [adjust_lr_multistep (fun _ => 0) 0 45 0 cfgMultistep [(1 : ℚ)/10] rfl,
      if_pos rfl, if_pos (by rw [hst]; norm_num)]
    rw [multistepLR, hst]
    norm_num [cfgMultistep]

/-- Witness for C2 (amended) at epoch 45, batch index 0, with the spec
example configuration. -/
theorem multistep_rate_witness :
    ∃ opt2, adjust_learning_rate (fun _ => 0) 0 45 0 cfgMultistep [(1 : ℚ)/10] =
      Except.ok (multistepLR cfgMultistep 45, opt2) :=
  (multistep_rate (fun _ => 0) 0 45 0 cfgMultistep [(1 : ℚ)/10] rfl
    (fun h => absurd rfl h)).1


/-! ### C3: the COSINE schedule formulas -/

/-- C3: the COSINE schedule.  With `B = cosineB` the ceiling
`ceil(dataset_size / batch_size)` of batches per epoch,
`W = cosineW = B * warmup_epochs` warmup batches,
`g = cosineG = (epoch-1) * B + batch_index` the global batch, and
`T = cosineT = B * (total_epochs - warmup_epochs)`: while `g < W` the
returned rate is the linear ramp `base_lr / W * (g+1)` — in particular
exactly `base_lr` at `g = W - 1` — and for `g ≥ W` (with `T ≠ 0`) it is
`(cos((g-W)/T * pi) + 1)/2 * (base_lr - floor_lr) + floor_lr` with
`floor_lr = base_lr * end_rate_fraction`; the rate is also written into
every parameter group. -/
theorem cosine_rate (rcos : ℚ → ℚ) (rpi : ℚ) (epoch : ℤ) (bidx : ℕ)
    (cfg : Cfg) (optimizer : List ℚ) (S B W : ℕ) (g T : ℤ)
    (hty : cfg.SOLVER.SCHEDULE.TYPE = "COSINE")
    (hS : datasetNumSamples cfg.DATASET.TYPE = some S)
    (hbs : cfg.SOLVER.BATCH_SIZE ≠ 0)
    (hB : B = cosineB S cfg)
    (hW : W = cosineW S cfg)
    (hg : g = cosineG S cfg epoch bidx)
    (hT : T = cosineT S cfg)
    (hep : 1 ≤ epoch) :
    (g < (W : ℤ) →
      adjust_learning_rate rcos rpi epoch bidx cfg optimizer =
        Except.ok (cfg.SOLVER.LR / (W : ℚ) * ((g : ℚ) + 1),
          optimizer.map fun _ => cfg.SOLVER.LR / (W : ℚ) * ((g : ℚ) + 1))) ∧
    (g = (W : ℤ) - 1 →
      ∃ opt2, adjust_learning_rate rcos rpi epoch bidx cfg optimizer =
        Except.ok (cfg.SOLVER.LR, opt2)) ∧
    ((W : ℤ) ≤ g → T ≠ 0 →
      adjust_learning_rate rcos rpi epoch bidx cfg optimizer =
        Except.ok ((rcos (((g - (W : ℤ) : ℤ) : ℚ) / (T : ℚ) * rpi) + 1) / 2 *
            (cfg.SOLVER.LR - cfg.SOLVER.LR * cfg.SOLVER.SCHEDULE.COSINE.RATE) +
            cfg.SOLVER.LR * cfg.SOLVER.SCHEDULE.COSINE.RATE,
          optimizer.map fun _ =>
            (rcos (((g - (W : ℤ) : ℤ) : ℚ) / (T : ℚ) * rpi) + 1) / 2 *
              (cfg.SOLVER.LR - cfg.SOLVER.LR * cfg.SOLVER.SCHEDULE.COSINE.RATE) +
              cfg.SOLVER.LR * cfg.SOLVER.SCHEDULE.COSINE.RATE)) := by
  subst hB
  subst hW
  subst hg
  subst hT
  have hg0 : (0 : ℤ) ≤ cosineG S cfg epoch bidx := by
    unfold cosineG
    exact add_nonneg (mul_nonneg (by omega) (by positivity)) (by positivity)
  have main1 : cosineG S cfg epoch bidx < (cosineW S cfg : ℤ) →
      adjust_learning_rate rcos rpi epoch bidx cfg optimizer =
        Except.ok (cfg.SOLVER.LR / (cosineW S cfg : ℚ) *
            ((cosineG S cfg epoch bidx : ℚ) + 1),
          optimizer.map fun _ => cfg.SOLVER.LR / (cosineW S cfg : ℚ) *
            ((cosineG S cfg epoch bidx : ℚ) + 1)) := by
    intro hlt
    have hW0 : cosineW S cfg ≠ 0 := by
      intro h0
      rw [h0] at hlt
      omega
    rw [adjust_lr_cosine_known rcos rpi epoch bidx cfg optimizer S hty hS,
      if_neg hbs, if_pos hlt, if_neg hW0]
    rfl
  refine ⟨main1, ?_, ?_⟩
  · intro hbd
    have hW1 : 1 ≤ cosineW S cfg := by omega
    have hlt : cosineG S cfg epoch bidx < (cosineW S cfg : ℤ) := by omega
    refine ⟨optimizer.map fun _ => cfg.SOLVER.LR / (cosineW S cfg : ℚ) *
      ((cosineG S cfg epoch bidx : ℚ) + 1), ?_⟩
    rw [main1 hlt]
    have hcast : ((cosineG S cfg epoch bidx : ℤ) : ℚ) + 1 = (cosineW S cfg : ℚ) := by
      rw [hbd]
      push_cast
      ring
    have hWQ : (cosineW S cfg : ℚ) ≠ 0 := Nat.cast_ne_zero.mpr (by omega)
    rw [hcast, div_mul_cancel₀ cfg.SOLVER.LR hWQ]
  · intro hge hT0
    rw [adjust_lr_cosine_known rcos rpi epoch bidx cfg optimizer S hty hS,
      if_neg hbs, if_neg (not_lt.mpr hge), if_neg hT0]
    have heq : cosineAnnealLR rcos rpi S cfg epoch bidx =
        (rcos (((cosineG S cfg epoch bidx - (cosineW S cfg : ℤ) : ℤ) : ℚ) /
            (cosineT S cfg : ℚ) * rpi) + 1) / 2 *
          (cfg.SOLVER.LR - cfg.SOLVER.LR * cfg.SOLVER.SCHEDULE.COSINE.RATE) +
          cfg.SOLVER.LR * cfg.SOLVER.SCHEDULE.COSINE.RATE := by
      rw [cosineAnnealLR]
      ring
    rw [heq]

/-- Witness for C3: one batch per epoch on cifar100, one warmup epoch,
epoch 1 batch 0 sits on the warmup ramp. -/
theorem cosine_rate_witness :
    adjust_learning_rate (fun _ => 0) 0 1 0 cfgCosine [(1 : ℚ)] =
      Except.ok (cfgCosine.SOLVER.LR / (cosineW 50000 cfgCosine : ℚ) *
          ((cosineG 50000 cfgCosine 1 0 : ℚ) + 1),
        [cfgCosine.SOLVER.LR / (cosineW 50000 cfgCosine : ℚ) *
          ((cosineG 50000 cfgCosine 1 0 : ℚ) + 1)]) :=
  (cosine_rate (fun _ => 0) 0 1 0 cfgCosine [(1 : ℚ)] 50000
    (cosineB 50000 cfgCosine) (cosineW 50000 cfgCosine)
    (cosineG 50000 cfgCosine 1 0) (cosineT 50000 cfgCosine)
    rfl rfl (by decide) rfl rfl rfl rfl (by decide)).1 (by decide)


/-! ### C4: when the scheduler raises -/

lemma datasetNumSamples_pos {t : String} {S : ℕ}
    (h : datasetNumSamples t = some S) : 1 ≤ S := by
  unfold datasetNumSamples at h
  split at h
  · obtain rfl := Option.some.inj h
    omega
  · obtain rfl := Option.some.inj h
    omega
  · cases h

lemma cosineB_pos (S : ℕ) (cfg : Cfg) (hS : 1 ≤ S)
    (hbs : cfg.SOLVER.BATCH_SIZE ≠ 0) : 1 ≤ cosineB S cfg := by
  unfold cosineB
  rw [Nat.le_div_iff_mul_le (Nat.pos_of_ne_zero hbs)]
  omega

/-- C4 counterexample: a COSINE configuration with a known dataset
(cifar100) but `batch_size = 0` raises `ZeroDivisionError`, although the
schedule type and the dataset identifier are both known. -/
theorem adjust_lr_error_counterexample :
    adjust_learning_rate (fun _ => 0) 0 1 0 cfgCosineZeroBS [(1 : ℚ)] =
      Except.error "ZeroDivisionError: batch size is zero" ∧
    cfgCosineZeroBS.SOLVER.SCHEDULE.TYPE = "COSINE" ∧
    datasetNumSamples cfgCosineZeroBS.DATASET.TYPE = some 50000 :=
  ⟨rfl, rfl, rfl⟩

/-- C4 (amended): provided the configuration is otherwise well formed —
nonzero batch size, epoch at least 1, total epochs different from the
warmup epochs, and a nonempty optimizer — `adjust_learning_rate` raises an
error exactly when the schedule type is neither MULTISTEP nor COSINE, or
the type is COSINE and the dataset identifier is unknown.  Outside these
provisos the code has further error paths, e.g. COSINE with
`batch_size = 0` raises `ZeroDivisionError`. -/
theorem adjust_lr_error_iff (rcos : ℚ → ℚ) (rpi : ℚ) (epoch : ℤ) (bidx : ℕ)
    (cfg : Cfg) (optimizer : List ℚ)
    (hbs : cfg.SOLVER.BATCH_SIZE ≠ 0) (hep : 1 ≤ epoch)
    (hwe : cfg.SOLVER.EPOCHS ≠ cfg.SOLVER.SCHEDULE.COSINE.WARMUP)
    (hopt : optimizer ≠ []) :
    (∃ e, adjust_learning_rate rcos rpi epoch bidx cfg optimizer =
        Except.error e) ↔
      ((cfg.SOLVER.SCHEDULE.TYPE ≠ "MULTISTEP" ∧
          cfg.SOLVER.SCHEDULE.TYPE ≠ "COSINE") ∨
        (cfg.SOLVER.SCHEDULE.TYPE = "COSINE" ∧
          datasetNumSamples cfg.DATASET.TYPE = none)) := by
  by_cases hM : cfg.SOLVER.SCHEDULE.TYPE = "MULTISTEP"
  · constructor
    · rintro ⟨e, he⟩
      exfalso
      rw [adjust_lr_multistep rcos rpi epoch bidx cfg optimizer hM] at he
      by_cases hb : bidx = 0
      · rw [if_pos hb] at he
        by_cases hs : 0 < multistepSteps epoch cfg.SOLVER.SCHEDULE.MULTISTEP.STAGES
        · rw [if_pos hs] at he
          cases he
        · rw [if_neg hs] at he
          cases he
      · rw [if_neg hb] at he
        rcases optimizer with _ | ⟨lr0, rest⟩
        · exact hopt rfl
        · cases he
    · rintro (⟨h1, h2⟩ | ⟨h1, h2⟩)
      · exact absurd hM h1
      · exact absurd (hM.symm.trans h1) (by decide)
  · by_cases hC : cfg.SOLVER.SCHEDULE.TYPE = "COSINE"
    · rcases hds : datasetNumSamples cfg.DATASET.TYPE with _ | S
      · constructor
        · intro _
          exact Or.inr ⟨hC, rfl⟩
        · intro _
          exact ⟨_, adjust_lr_unknown_dataset rcos rpi epoch bidx cfg optimizer hC hds⟩
      · have hS1 : 1 ≤ S := datasetNumSamples_pos hds
        have hB1 : 1 ≤ cosineB S cfg := cosineB_pos S cfg hS1 hbs
        constructor
        · rintro ⟨e, he⟩
          exfalso
          rw [adjust_lr_cosine_known rcos rpi epoch bidx cfg optimizer S hC hds,
            if_neg hbs] at he
          by_cases hg : cosineG S cfg epoch bidx < (cosineW S cfg : ℤ)
          · rw [if_pos hg] at he
            have hW0 : cosineW S cfg ≠ 0 := by
              intro h0
              have hg0 : (0 : ℤ) ≤ cosineG S cfg epoch bidx := by
                unfold cosineG
                exact add_nonneg (mul_nonneg (by omega) (by positivity)) (by positivity)
              rw [h0] at hg
              omega
            rw [if_neg hW0] at he
            cases he
          · rw [if_neg hg] at he
            have hT0 : cosineT S cfg ≠ 0 := by
              unfold cosineT
              apply mul_ne_zero
              · exact Nat.cast_ne_zero.mpr (by omega)
              · rw [sub_ne_zero]
                exact_mod_cast hwe
            rw [if_neg hT0] at he
            cases he
        · rintro (⟨h1, h2⟩ | ⟨h1, h2⟩)
          · exact absurd hC h2
          · cases h2
    · constructor
      · intro _
        exact Or.inl ⟨hM, hC⟩
      · intro _
        exact ⟨_, adjust_lr_unknown rcos rpi epoch bidx cfg optimizer hM hC⟩

/-- Witness for C4 (amended): an unknown schedule type raises. -/
theorem adjust_lr_error_iff_witness :
    ∃ e, adjust_learning_rate (fun _ => 0) 0 1 0 cfgUnknownType [(1 : ℚ)] =
      Except.error e :=
  (adjust_lr_error_iff (fun _ => 0) 0 1 0 cfgUnknownType [(1 : ℚ)]
    (by decide) (by decide) (by decide) (List.cons_ne_nil _ _)).mpr
    (Or.inl ⟨by decide, by decide⟩)


/-! ### Helper lemmas about `maxOfTopk`, `rankIndices` and `accuracy` -/

lemma foldl_max_le {c : ℕ} : ∀ (l : List ℕ) (a : ℕ),
    a ≤ c → (∀ x ∈ l, x ≤ c) → l.foldl max a ≤ c := by
  intro l
  induction l with
  | nil => intro a ha _; exact ha
  | cons x t ih =>
    intro a ha hl
    exact ih (max a x) (max_le ha (hl x (List.mem_cons_self x t)))
      fun y hy => hl y (List.mem_cons_of_mem x hy)

lemma le_foldl_max : ∀ (l : List ℕ) (a : ℕ), a ≤ l.foldl max a := by
  intro l
  induction l with
  | nil => intro a; exact le_refl a
  | cons x t ih =>
    intro a
    exact le_trans (le_max_left a x) (ih (max a x))

lemma mem_le_foldl_max : ∀ (l : List ℕ) (a x : ℕ), x ∈ l → x ≤ l.foldl max a := by
  intro l
  induction l with
  | nil => intro a x hx; cases hx
  | cons y t ih =>
    intro a x hx
    rcases List.mem_cons.1 hx with rfl | hx2
    · exact le_trans (le_max_right a x) (le_foldl_max t (max a x))
    · exact ih (max a y) x hx2

lemma le_maxOfTopk {k : ℕ} {topk : List ℕ} (h : k ∈ topk) : k ≤ maxOfTopk topk := by
  rcases topk with _ | ⟨k0, ks⟩
  · cases h
  · rcases List.mem_cons.1 h with rfl | h2
    · exact le_foldl_max ks k
    · exact mem_le_foldl_max ks k0 k h2

lemma maxOfTopk_le {c : ℕ} {topk : List ℕ} (h : ∀ k ∈ topk, k ≤ c) :
    maxOfTopk topk ≤ c := by
  rcases topk with _ | ⟨k0, ks⟩
  · exact Nat.zero_le c
  · exact foldl_max_le ks k0 (h k0 (List.mem_cons_self k0 ks))
      fun x hx => h x (List.mem_cons_of_mem k0 hx)

lemma rankIndices_perm (row : List ℚ) (cols : ℕ) :
    (rankIndices row cols).Perm (List.range cols) :=
  List.perm_insertionSort (idxOrder row) (List.range cols)

lemma rankIndices_length (row : List ℚ) (cols : ℕ) :
    (rankIndices row cols).length = cols := by
  rw [(rankIndices_perm row cols).length_eq, List.length_range]

lemma rankIndices_nodup (row : List ℚ) (cols : ℕ) :
    (rankIndices row cols).Nodup :=
  (rankIndices_perm row cols).nodup_iff.mpr (List.nodup_range cols)

lemma rankIndices_mem (row : List ℚ) (cols i : ℕ) :
    i ∈ rankIndices row cols ↔ i < cols := by
  rw [(rankIndices_perm row cols).mem_iff, List.mem_range]

lemma rankIndices_sorted (row : List ℚ) (cols : ℕ) :
    (rankIndices row cols).Sorted (idxOrder row) :=
  List.sorted_insertionSort (idxOrder row) (List.range cols)

/-- The first `k` ranked classes satisfy the conventional top-k selection
specification: they are `min k cols` distinct valid classes, each beating
every unselected class by score, with exact ties won by the lower index. -/
lemma topkSpec_take (row : List ℚ) (cols k : ℕ) :
    TopkSpec row cols k ((rankIndices row cols).take k) := by
  refine ⟨?_, ?_, ?_, ?_⟩
  · rw [List.length_take, rankIndices_length]
  · exact (List.take_sublist k _).nodup (rankIndices_nodup row cols)
  · intro i hi
    exact (rankIndices_mem row cols i).1 (List.take_subset k _ hi)
  · intro i hi j hj hjn
    have hjmem : j ∈ rankIndices row cols := (rankIndices_mem row cols j).2 hj
    rw [← List.take_append_drop k (rankIndices row cols)] at hjmem
    have hjd : j ∈ (rankIndices row cols).drop k := by
      rcases List.mem_append.1 hjmem with h | h
      · exact absurd h hjn
      · exact h
    have hpw := rankIndices_sorted row cols
    rw [List.Sorted, ← List.take_append_drop k (rankIndices row cols),
      List.pairwise_append] at hpw
    have hio := hpw.2.2 i hi j hjd
    have hne : i ≠ j := fun he => hjn (he ▸ hi)
    rcases hio with hlt | ⟨heq, hle⟩
    · exact Or.inl hlt
    · exact Or.inr ⟨heq, lt_of_le_of_ne hle hne⟩

lemma accuracy_err_topk (output : Tensor2) (target : List ℕ) (topk : List ℕ)
    (hne : topk ≠ []) (hc : output.cols < maxOfTopk topk) :
    accuracy output target topk =
      Except.error "RuntimeError: selected index k out of range" := by
  rcases topk with _ | ⟨k0, krest⟩
  · exact absurd rfl hne
  · simp only [accuracy]
    rw [if_pos hc]

lemma accuracy_err_empty (output : Tensor2) (target : List ℕ) (topk : List ℕ)
    (hne : topk ≠ []) (hc : ¬ output.cols < maxOfTopk topk)
    (ht : target.length = 0) :
    accuracy output target topk =
      Except.error "ZeroDivisionError: division by zero" := by
  rcases topk with _ | ⟨k0, krest⟩
  · exact absurd rfl hne
  · simp only [accuracy]
    rw [if_neg hc, if_pos ht]

lemma accuracy_ok (output : Tensor2) (target : List ℕ) (topk : List ℕ)
    (hne : topk ≠ []) (hc : ¬ output.cols < maxOfTopk topk)
    (ht : ¬ target.length = 0) :
    accuracy output target topk =
      Except.ok (topk.map fun k =>
        ((((output.rows.map fun row =>
              (rankIndices row output.cols).take (maxOfTopk topk)).zip
            target).countP fun p => decide (p.2 ∈ p.1.take k)) : ℚ) *
          (100 / (target.length : ℚ))) := by
  rcases topk with _ | ⟨k0, krest⟩
  · exact absurd rfl hne
  · simp only [accuracy]
    rw [if_neg hc, if_neg ht]

/-- Truncating the ranking at `maxk ≥ k` before taking `k` does not change
the per-`k` hit count. -/
lemma countP_take_eq_hitCount (output : Tensor2) (target : List ℕ)
    (k maxk : ℕ) (hk : k ≤ maxk) :
    ((output.rows.map fun row =>
        (rankIndices row output.cols).take maxk).zip target).countP
      (fun p => decide (p.2 ∈ p.1.take k)) = hitCount output target k := by
  unfold hitCount
  rw [List.zip_map_left, List.countP_map]
  apply List.countP_congr
  intro p _
  simp only [Function.comp, Prod.map, decide_eq_true_eq, id]
  rw [List.take_take, min_eq_left hk]

/-! ### C6: accuracy is monotone in k -/

/-- C6: whenever `accuracy` returns a result list, positions `i` and `j` of
the request list with `ks[i] ≤ ks[j]` carry results `res[i] ≤ res[j]`; in
particular accuracy at 1 is at most accuracy at 5. -/
theorem accuracy_monotone (output : Tensor2) (target : List ℕ) (topk : List ℕ)
    (res : List ℚ) (i j ki kj : ℕ)
    (hres : accuracy output target topk = Except.ok res)
    (hki : topk.get? i = some ki) (hkj : topk.get? j = some kj)
    (hk : ki ≤ kj) :
    ∃ ai aj, res.get? i = some ai ∧ res.get? j = some aj ∧ ai ≤ aj := by
  have hne : topk ≠ [] := by
    rintro rfl
    cases hki
  by_cases hc : output.cols < maxOfTopk topk
  · rw [accuracy_err_topk output target topk hne hc] at hres
    cases hres
  by_cases ht : target.length = 0
  · rw [accuracy_err_empty output target topk hne hc ht] at hres
    cases hres
  rw [accuracy_ok output target topk hne hc ht] at hres
  obtain rfl := Except.ok.inj hres
  refine ⟨((((output.rows.map fun row =>
        (rankIndices row output.cols).take (maxOfTopk topk)).zip target).countP
      fun p => decide (p.2 ∈ p.1.take ki)) : ℚ) * (100 / (target.length : ℚ)),
    ((((output.rows.map fun row =>
        (rankIndices row output.cols).take (maxOfTopk topk)).zip target).countP
      fun p => decide (p.2 ∈ p.1.take kj)) : ℚ) * (100 / (target.length : ℚ)),
    ?_, ?_, ?_⟩
  · rw [List.get?_map, hki]
    rfl
  · rw [List.get?_map, hkj]
    rfl
  · apply mul_le_mul_of_nonneg_right
    · apply Nat.cast_le.mpr
      apply List.countP_mono_left
      intro p _ hp
      rw [decide_eq_true_eq] at hp ⊢
      have hp2 : p.2 ∈ (p.1.take kj).take ki := by
        rw [List.take_take, min_eq_left hk]
        exact hp
      exact List.take_subset ki (p.1.take kj) hp2
    · exact div_nonneg (by norm_num) (Nat.cast_nonneg _)

/-- The concrete score matrix of the accuracy examples: one sample with
scores `[3, 1, 2]` over three classes. -/
def exampleScores : Tensor2 := { rows := [[3, 1, 2]], cols := 3 }

/-- The result list `accuracy` produces on `exampleScores` with label `2`
and requested k values `[1, 2]`. -/
def exampleRes : List ℚ :=
  [1, 2].map fun k =>
    ((((exampleScores.rows.map fun row =>
          (rankIndices row exampleScores.cols).take (maxOfTopk [1, 2])).zip
        ([2] : List ℕ)).countP fun p => decide (p.2 ∈ p.1.take k)) : ℚ) *
      (100 / ((([2] : List ℕ).length : ℕ) : ℚ))

/-- Witness for C6 at the concrete example: requested ks `[1, 2]`. -/
theorem accuracy_monotone_witness :
    ∃ ai aj, exampleRes.get? 0 = some ai ∧ exampleRes.get? 1 = some aj ∧
      ai ≤ aj :=
  accuracy_monotone exampleScores [2] [1, 2] exampleRes 0 1 1 2 rfl rfl rfl
    (by decide)

/-! ### C8: what the per-k accuracy computes -/

/-- C8: per sample the k selected classes are the k highest-scoring ones
with exact ties broken toward the lower class index (`TopkSpec`); `accuracy`
returns, in request order, one value per requested k, namely the hit count
scaled by `100 / batch_size`, and every such value lies between 0 and
100. -/
theorem accuracy_topk_spec (output : Tensor2) (target : List ℕ)
    (topk : List ℕ) (hne : topk ≠ []) (hcols : ∀ k ∈ topk, k ≤ output.cols)
    (hB : target.length ≠ 0) :
    (∀ row ∈ output.rows, ∀ k ∈ topk,
      TopkSpec row output.cols k ((rankIndices row output.cols).take k)) ∧
    accuracy output target topk =
      Except.ok (topk.map fun k =>
        (hitCount output target k : ℚ) * (100 / (target.length : ℚ))) ∧
    (∀ k ∈ topk,
      0 ≤ (hitCount output target k : ℚ) * (100 / (target.length : ℚ)) ∧
      (hitCount output target k : ℚ) * (100 / (target.length : ℚ)) ≤ 100) := by
  have hc : ¬ output.cols < maxOfTopk topk := not_lt.mpr (maxOfTopk_le hcols)
  refine ⟨?_, ?_, ?_⟩
  · intro row _ k _
    exact topkSpec_take row output.cols k
  · rw [accuracy_ok output target topk hne hc hB]
    congr 1
    apply List.map_congr_left
    intro k hkmem
    rw [countP_take_eq_hitCount output target k (maxOfTopk topk)
      (le_maxOfTopk hkmem)]
  · intro k hkmem
    have hBQ : ((target.length : ℕ) : ℚ) ≠ 0 := Nat.cast_ne_zero.mpr hB
    constructor
    · exact mul_nonneg (Nat.cast_nonneg _)
        (div_nonneg (by norm_num) (Nat.cast_nonneg _))
    · have hle : hitCount output target k ≤ target.length := by
        calc hitCount output target k ≤ (output.rows.zip target).length :=
              List.countP_le_length _
          _ ≤ target.length := by
              rw [List.length_zip]
              exact min_le_right _ _
      calc (hitCount output target k : ℚ) * (100 / (target.length : ℚ)) ≤
            (target.length : ℚ) * (100 / (target.length : ℚ)) :=
            mul_le_mul_of_nonneg_right (Nat.cast_le.mpr hle)
              (div_nonneg (by norm_num) (Nat.cast_nonneg _))
        _ = 100 := by
            rw [mul_comm, div_mul_cancel₀ (100 : ℚ) hBQ]

/-- Witness for C8 at the concrete example. -/
theorem accuracy_topk_spec_witness :
    accuracy exampleScores [2] [1, 2] =
      Except.ok ([1, 2].map fun k =>
        (hitCount exampleScores [2] k : ℚ) *
          (100 / ((([2] : List ℕ).length : ℕ) : ℚ))) :=
  (accuracy_topk_spec exampleScores [2] [1, 2] (by decide) (by decide)
    (by decide)).2.1

/-! ### C10: the implicit preconditions of accuracy -/

/-- C10: `accuracy` reaches an error branch whenever the score matrix has
fewer classes than the largest requested k (the top-k selection itself
fails) or — with enough classes — the batch is empty (the per-k scaling
divides 100 by a batch size of 0); so totality requires a non-empty batch
and at least `max(topk)` classes. -/
theorem accuracy_requires (output : Tensor2) (target : List ℕ)
    (topk : List ℕ) (hne : topk ≠ []) :
    (output.cols < maxOfTopk topk →
      accuracy output target topk =
        Except.error "RuntimeError: selected index k out of range") ∧
    (¬ output.cols < maxOfTopk topk → target.length = 0 →
      accuracy output target topk =
        Except.error "ZeroDivisionError: division by zero") :=
  ⟨fun hc => accuracy_err_topk output target topk hne hc,
    fun hc ht => accuracy_err_empty output target topk hne hc ht⟩

/-- Witness for C10: requesting k = 5 over 3 classes fails in the top-k
selection, and an empty batch fails in the per-k scaling. -/
theorem accuracy_requires_witness :
    accuracy exampleScores [2] [1, 5] =
      Except.error "RuntimeError: selected index k out of range" ∧
    accuracy exampleScores [] [1, 2] =
      Except.error "ZeroDivisionError: division by zero" :=
  ⟨(accuracy_requires exampleScores [2] [1, 5] (by decide)).1 (by decide),
    (accuracy_requires exampleScores [] [1, 2] (by decide)).2 (by decide)
      (by decide)⟩

/-! ### C7: the role flag cannot influence the metrics -/

/-- C7: two runs of `validate` on the same batches, criterion and timings
that differ only in the master/role flag return identical metrics (top-1
average, top-5 average, loss average); the flag selects only the progress
messages. -/
theorem validate_role_noninterference (criterion : Tensor2 → List ℕ → ℚ)
    (batches : List Batch) (durations : List ℚ) (m1 m2 : Bool) :
    Except.map Prod.fst (validate m1 criterion batches durations) =
    Except.map Prod.fst (validate m2 criterion batches durations) := by
  have key : ∀ (bs : List Batch) (ds : List ℚ) (bt l t1 t5 : AverageMeter)
      (msgs1 msgs2 : List String),
      Except.map Prod.fst (validateLoop m1 criterion bs ds bt l t1 t5 msgs1) =
      Except.map Prod.fst (validateLoop m2 criterion bs ds bt l t1 t5 msgs2) := by
    intro bs
    induction bs with
    | nil =>
      intro ds bt l t1 t5 msgs1 msgs2
      rfl
    | cons b rest ih =>
      intro ds bt l t1 t5 msgs1 msgs2
      simp only [validateLoop]
      rcases hstep : evalStep criterion b (ds.headD 0) bt l t1 t5 with e | st4
      · rfl
      · rcases st4 with ⟨bt2, l2, t12, t52⟩
        exact ih ds.tail bt2 l2 t12 t52 _ _
  have h2 := key batches durations AverageMeter.reset AverageMeter.reset
    AverageMeter.reset AverageMeter.reset [] []
  unfold validate
  rcases h1 : validateLoop m1 criterion batches durations AverageMeter.reset
      AverageMeter.reset AverageMeter.reset AverageMeter.reset [] with e1 | p1 <;>
    rcases hq : validateLoop m2 criterion batches durations AverageMeter.reset
      AverageMeter.reset AverageMeter.reset AverageMeter.reset [] with e2 | p2 <;>
    rw [h1, hq] at h2 <;>
    simp only [Except.map] at h2
  · obtain rfl := Except.error.inj h2
    rfl
  · cases h2
  · cases h2
  · obtain h3 := Except.ok.inj h2
    rcases p1 with ⟨⟨bt1, l1, t11, t51⟩, ms1⟩
    rcases p2 with ⟨⟨bt2, l2, t12, t52⟩, ms2⟩
    simp only [Prod.mk.injEq] at h3
    obtain ⟨rfl, rfl, rfl, rfl⟩ := h3
    rfl

/-! ### C9: checkpoint save/load round-trip -/

/-- C9: loading a checkpoint immediately after saving it returns the saved
state: for any state type, any path and any prior file-system contents,
`load_checkpoint path (save_checkpoint obj path fs) = ok obj`. -/
theorem checkpoint_roundtrip {V : Type} (obj : V) (path : String)
    (fs : FileSystem V) :
    load_checkpoint path (save_checkpoint obj path fs) = Except.ok obj := by
  unfold load_checkpoint save_checkpoint
  rw [if_pos rfl]

end Mdistiller
